import Mathlib

/-!
Verification of the Morph-Target Animation Blending Engine of the avatar
frontend. Pure fragments of the React shell (App.jsx, HowToModal.jsx) are
embedded directly; engine components that the snapshot only calls
(ChannelMixer, MorphIndexResolver, GestureStateMachine, VisemeSequencer,
AnimationClock) are modelled from the design document. Weights are
rationals; time is measured in milliseconds as rationals.
-/

/-- A sparse morph-weight vector: morph-target index to weight, absence is 0. -/
abbrev MorphVector := List (Nat × ℚ)

/-- Clamp a weight into the unit interval. -/
def clamp01 (x : ℚ) : ℚ := max 0 (min 1 x)

/-- Modelled from the spec: ChannelState (section 3) of the engine, which is
not part of the snapshot. Per channel: current weight contribution, an
active flag, elapsed time since the last retarget, and a blend duration. -/
structure ChannelState where
  weights : MorphVector
  active : Bool
  elapsed : ℚ
  blendDuration : ℚ

/-- Weight of index `i` in a sparse vector; 0 when absent. -/
def lookupWeight (mv : MorphVector) (i : Nat) : ℚ :=
  match mv.find? (fun p => p.1 == i) with
  | some p => p.2
  | none => 0

/-- Modelled from the spec: the ChannelMixer per-index combination rule
(section 4.5), which is not part of the snapshot. Viseme and gesture
contributions take precedence over expression on overlapping targets; idle
contributes fully only on untouched targets and is scaled by 0.3 on shared
ones; the final weight is clamped to [0,1]. -/
def mixIndex (e v g idl : ℚ) : ℚ :=
  let vg := v + g
  let base := if vg = 0 then e else vg
  let combined := if base = 0 then idl else base + (3 / 10) * idl
  clamp01 combined

/-- Indices without duplicates (keeps the last occurrence of each). -/
def dedupIdx : List Nat → List Nat
  | [] => []
  | a :: as => if a ∈ as then dedupIdx as else a :: dedupIdx as

/-- All morph-target indices touched by any of the four channels. -/
def mixIndices (ce cv cg ci : ChannelState) : List Nat :=
  dedupIdx (ce.weights.map Prod.fst ++ cv.weights.map Prod.fst ++
   cg.weights.map Prod.fst ++ ci.weights.map Prod.fst)

/-- Modelled from the spec: the ChannelMixer (section 4.5), not part of the
snapshot. Produces one MorphVector per frame from the expression, viseme,
gesture and idle channel snapshots. -/
def mixChannels (ce cv cg ci : ChannelState) : MorphVector :=
  (mixIndices ce cv cg ci).map (fun i =>
    (i, mixIndex (lookupWeight ce.weights i) (lookupWeight cv.weights i)
        (lookupWeight cg.weights i) (lookupWeight ci.weights i)))

/-- Lower-cased character list of a string, for case-insensitive matching. -/
def lowerStr (s : String) : List Char := s.data.map Char.toLower

/-- Whether the second list starts with the first list. -/
def leadsWith : List Char → List Char → Bool
  | [], _ => true
  | _ :: _, [] => false
  | a :: as, b :: bs => a == b && leadsWith as bs

/-- Whether the second list occurs contiguously inside the first list. -/
def containsChars : List Char → List Char → Bool
  | [], nee => leadsWith nee []
  | h :: t, nee => leadsWith nee (h :: t) || containsChars t nee

/-- Modelled from the spec: the deterministic case-insensitive substring
match of MorphIndexResolver (section 4.1), not part of the snapshot. -/
def nameMatches (modelName query : String) : Bool :=
  containsChars (lowerStr modelName) (lowerStr query) ||
  containsChars (lowerStr query) (lowerStr modelName)

/-- Index of the first element satisfying the predicate, if any. -/
def firstMatchIdx {α : Type} (p : α → Bool) : List α → Option Nat
  | [] => none
  | a :: as => if p a then some 0 else Option.map (· + 1) (firstMatchIdx p as)

/-- Modelled from the spec: MorphIndexResolver.resolve (section 4.1), not
part of the snapshot. Hint table first, then a case-insensitive substring
match against the model name list; absent otherwise, never an error. -/
def resolve (hints : List (String × Nat)) (modelNames : List String)
    (name : String) : Option Nat :=
  match hints.find? (fun p => p.1 == name) with
  | some p => some p.2
  | none => firstMatchIdx (fun m => nameMatches m name) modelNames

/-- Modelled from the spec: how a channel turns named activations into a
MorphVector fragment (sections 4.1 and 3): an unresolved name contributes
nothing, the engine never emits an index for it. -/
def emitChannel (res : String → Option Nat) (acts : List (String × ℚ)) :
    MorphVector :=
  acts.filterMap (fun a => Option.map (fun i => (i, a.2)) (res a.1))

/-- Modelled from the spec: the GestureStateMachine phases (section 4.4). -/
inductive GPhase where
  | idle
  | playing (g : String) (remaining : ℚ)
  | cooldown (remaining : ℚ)
deriving DecidableEq

/-- Modelled from the spec: GestureStateMachine state (section 4.4), not
part of the snapshot: the current phase plus the single queued slot. -/
structure GestureSM where
  phase : GPhase
  queued : Option String
deriving DecidableEq

/-- Modelled from the spec: the recognised gesture kinds (section 2). -/
def knownGestures : List String := ["nod", "shake", "tilt"]

/-- Modelled from the spec: duration of a gesture curve, about 900ms
(section 4.2, nod as a two-cycle sinusoid over roughly 900ms). -/
def gestureDuration (_g : String) : ℚ := 900

/-- Modelled from the spec: the refractory period after a gesture completes,
default about 150ms (section 4.4). -/
def cooldownTime : ℚ := 150

/-- Modelled from the spec: request(gesture) of section 4.4, not part of the
snapshot. Enqueues into the single queued slot, latest wins; an unknown kind
is a no-op; the playing phase is never touched. -/
def request (g : String) (s : GestureSM) : GestureSM :=
  if knownGestures.contains g then { s with queued := some g } else s

/-- Modelled from the spec: advance(deltaTime) of section 4.4, not part of
the snapshot. Idle starts the queued gesture; playing progresses the timed
curve and on completion enters cooldown; cooldown counts down to idle. -/
def gsmAdvance (dt : ℚ) (s : GestureSM) : GestureSM :=
  match s.phase with
  | GPhase.idle =>
    match s.queued with
    | some g => { phase := GPhase.playing g (gestureDuration g), queued := none }
    | none => s
  | GPhase.playing g r =>
    if dt < r then { s with phase := GPhase.playing g (r - dt) }
    else { s with phase := GPhase.cooldown cooldownTime }
  | GPhase.cooldown r =>
    if dt < r then { s with phase := GPhase.cooldown (r - dt) }
    else { s with phase := GPhase.idle }

/-- Modelled from the spec: the engine state around the mixer (sections 2
and 4.5), not part of the snapshot. Blink randomness lives in the idle
channel seed and the clock lives beside the channels; neither is an input
of the mixer. -/
structure Engine where
  expressionCh : ChannelState
  visemeCh : ChannelState
  gestureCh : ChannelState
  idleCh : ChannelState
  blinkSeed : Nat
  lastTick : ℚ

/-- Modelled from the spec: the per-frame emission (section 2): the mixer
resolves the merged vector from the four channel snapshots alone. -/
def emitFrame (e : Engine) : MorphVector :=
  mixChannels e.expressionCh e.visemeCh e.gestureCh e.idleCh

/-- Modelled from the spec: the viseme release window, about 150ms
(section 4.3). -/
def releaseWindow : ℚ := 150

/-- Modelled from the spec: a timed viseme event (section 3). -/
structure VisemeEvent where
  viseme : Nat
  onset : ℚ
  duration : ℚ

/-- Modelled from the spec: the Viseme channel state driven by the
VisemeSequencer (sections 4.2 and 4.3), not part of the snapshot. -/
structure VisState where
  weight : ℚ
  releaseFrom : ℚ
  releaseElapsed : ℚ
  speaking : Bool

/-- Modelled from the spec: the speaking signal entering the sequencer
(section 4.3). On speaking becoming false the channel starts its release
from the current weight. -/
def visSetSpeaking (b : Bool) (s : VisState) : VisState :=
  if b then { s with speaking := true }
  else { weight := s.weight, releaseFrom := s.weight,
         releaseElapsed := 0, speaking := false }

/-- Modelled from the spec: arrival of a viseme event (section 4.3). Events
retarget the mouth while speaking; once the release is forced they are
ignored rather than resurrecting the mouth. -/
def visApplyEvent (_ev : VisemeEvent) (s : VisState) : VisState :=
  if s.speaking then { s with weight := 1 } else s

/-- Modelled from the spec: advancing the Viseme channel by elapsed time
(section 4.3). Out of speech the weight decays linearly to neutral over the
release window instead of cutting abruptly. -/
def visAdvance (dt : ℚ) (s : VisState) : VisState :=
  if s.speaking then s
  else
    let e := s.releaseElapsed + dt
    { weight := s.releaseFrom * max 0 (1 - e / releaseWindow),
      releaseFrom := s.releaseFrom, releaseElapsed := e, speaking := false }

/-- An input consumed by the Viseme channel between two frames: an arriving
event or a clock tick. -/
inductive VisInput where
  | ev (e : VisemeEvent)
  | tick (dt : ℚ)

/-- One step of the Viseme channel on one input. -/
def visStep (s : VisState) (x : VisInput) : VisState :=
  match x with
  | VisInput.ev e => visApplyEvent e s
  | VisInput.tick dt => visAdvance dt s

/-- A run of the Viseme channel over a list of inputs. -/
def visRun (s : VisState) (xs : List VisInput) : VisState := xs.foldl visStep s

/-- Total clock time contained in a list of viseme-channel inputs. -/
def totalTicks : List VisInput → ℚ
  | [] => 0
  | VisInput.ev _ :: xs => totalTicks xs
  | VisInput.tick dt :: xs => dt + totalTicks xs

/-- Modelled from the spec: the deltaTime clamp threshold of AnimationClock,
100ms (section 4.6). -/
def maxDelta : ℚ := 100

/-- Modelled from the spec: AnimationClock state (section 4.6), not part of
the snapshot: the wall-clock time of the previous tick. -/
structure ClockState where
  lastTime : ℚ

/-- Modelled from the spec: one AnimationClock tick (section 4.6), not part
of the snapshot. Supplies the wall-clock time elapsed since the previous
tick, clamped to the maximum, and remembers the current time. -/
def clockTick (now : ℚ) (s : ClockState) : ℚ × ClockState :=
  (min (now - s.lastTime) maxDelta, ⟨now⟩)

/-- A morph hint table: blendshape name to morph-target index. -/
abbrev MorphHints := List (String × Nat)

/-- Outcome of the startup fetch of the morph hint file, as seen by the
promise chain in App.jsx: the fetch may reject, or respond with an ok flag
and a body whose JSON parse may itself reject or yield null. -/
inductive FetchOutcome where
  | rejected
  | response (ok : Bool) (body : Except Unit (Option MorphHints))

/-- The promise chain of the hint-loading effect in App.jsx: a non-ok
response yields null, a parsed body is forwarded only when truthy, and any
rejection is swallowed by the final catch. The result is the argument
passed to setMorphIndexHints, or none when the setter is not called. -/
def loadMorphHints (o : FetchOutcome) : Option MorphHints :=
  match o with
  | FetchOutcome.rejected => none
  | FetchOutcome.response ok body =>
    if ok then
      match body with
      | Except.ok (some data) => some data
      | Except.ok none => none
      | Except.error _ => none
    else none

/-- The well-known path fetched by the mount effect in App.jsx. -/
def morphHintUrl : String := "/avatar.morphmap.json"

/-- The hint loads performed by the App mount effect: its dependency array
is empty, so exactly one fetch of the well-known path happens per mount. -/
def appMountHintLoads (o : FetchOutcome) : List (String × Option MorphHints) :=
  [(morphHintUrl, loadMorphHints o)]

/-- The four pending signal values held by App.jsx. -/
structure AppSignals where
  expression : Option String
  viseme : Option String
  gesture : Option String
  speaking : Bool

/-- The setExpression state setter of App.jsx: replaces the expression
signal only. -/
def setExpression (v : Option String) (s : AppSignals) : AppSignals :=
  { s with expression := v }

/-- The setViseme state setter of App.jsx: replaces the viseme signal only. -/
def setViseme (v : Option String) (s : AppSignals) : AppSignals :=
  { s with viseme := v }

/-- The setGesture state setter of App.jsx: replaces the gesture signal only. -/
def setGesture (v : Option String) (s : AppSignals) : AppSignals :=
  { s with gesture := v }

/-- The setSpeaking state setter of App.jsx: replaces the speaking flag only. -/
def setSpeaking (b : Bool) (s : AppSignals) : AppSignals :=
  { s with speaking := b }

/-- The application state relevant to the signal contract: the pending
signals, the engine state, and the last vector applied to the render
surface. -/
structure AppModel where
  signals : AppSignals
  engine : Engine
  rendered : MorphVector

/-- setExpression lifted to the whole application state: a signal setter
only updates pending-target state. -/
def appSetExpression (v : Option String) (m : AppModel) : AppModel :=
  { m with signals := setExpression v m.signals }

/-- setViseme lifted to the whole application state. -/
def appSetViseme (v : Option String) (m : AppModel) : AppModel :=
  { m with signals := setViseme v m.signals }

/-- setGesture lifted to the whole application state. -/
def appSetGesture (v : Option String) (m : AppModel) : AppModel :=
  { m with signals := setGesture v m.signals }

/-- setSpeaking lifted to the whole application state. -/
def appSetSpeaking (b : Bool) (m : AppModel) : AppModel :=
  { m with signals := setSpeaking b m.signals }

/-- The initial signal state of App.jsx: useState(null) for expression,
viseme and gesture, useState(false) for speaking. -/
def initialSignals : AppSignals :=
  { expression := none, viseme := none, gesture := none, speaking := false }

/-- Modelled from the spec: how a channel interprets an optional named
signal (section 6), not part of the snapshot: null means settle to the
neutral target, an unknown name degrades to neutral, never an error. -/
def targetForSignal (presets : String → Option MorphVector)
    (sig : Option String) : MorphVector :=
  match sig with
  | none => []
  | some n => (presets n).getD []

/-- Modelled from the spec: how the gesture signal feeds the state machine
(section 6): a null gesture requests nothing and is never an error. -/
def applyGestureSignal (sig : Option String) (s : GestureSM) : GestureSM :=
  match sig with
  | none => s
  | some g => request g s

/-- The open effect of HowToModal.jsx on the body overflow style: it saves
the previous value and sets the style to hidden. Returns (saved, new). -/
def modalOpenEffect (overflow : String) : String × String :=
  (overflow, "hidden")

/-- The cleanup of the HowToModal effect: writes the saved value back to the
body overflow style. -/
def modalCleanup (saved : String) (_body : String) : String := saved

/-! Helper lemmas. -/

theorem clamp01_nonneg (x : ℚ) : 0 ≤ clamp01 x := le_max_left 0 _

theorem clamp01_le_one (x : ℚ) : clamp01 x ≤ 1 :=
  max_le (by norm_num) (min_le_left 1 _)

theorem mixIndex_mem_unitInterval (e v g idl : ℚ) :
    0 ≤ mixIndex e v g idl ∧ mixIndex e v g idl ≤ 1 := by
  unfold mixIndex
  exact ⟨clamp01_nonneg _, clamp01_le_one _⟩

theorem firstMatchIdx_eq_none {α : Type} {p : α → Bool} {l : List α}
    (h : ∀ a ∈ l, p a = false) : firstMatchIdx p l = none := by
  induction l with
  | nil => rfl
  | cons a as ih =>
    have ha : p a = false := h a (List.mem_cons_self a as)
    have has : ∀ x ∈ as, p x = false :=
      fun x hx => h x (List.mem_cons_of_mem a hx)
    simp [firstMatchIdx, ha, ih has]

/-! Claim theorems. -/

/-- Claim C1: for every frame, the MorphVector produced by the ChannelMixer
assigns to every morph-target index a weight in [0,1]; merging several
channels on one index saturates at 1 instead of summing unboundedly. -/
theorem c1_mixer_output_clamped (ce cv cg ci : ChannelState) (i : Nat) (w : ℚ)
    (h : (i, w) ∈ mixChannels ce cv cg ci) : 0 ≤ w ∧ w ≤ 1 := by
  rcases List.mem_map.mp h with ⟨j, _hj, hw⟩
  simp only [Prod.mk.injEq] at hw
  obtain ⟨rfl, rfl⟩ := hw
  exact mixIndex_mem_unitInterval _ _ _ _

/-- Concrete run of C1: a viseme weight 0.8 and a gesture weight 0.7 on the
same index merge to the saturated weight 1, inside [0,1]. -/
theorem c1_mixer_output_clamped_witness : 0 ≤ (1 : ℚ) ∧ (1 : ℚ) ≤ 1 :=
  c1_mixer_output_clamped ⟨[], false, 0, 0⟩ ⟨[(0, 4/5)], true, 0, 100⟩
    ⟨[(0, 7/10)], true, 0, 900⟩ ⟨[], false, 0, 0⟩ 0 1
    (by norm_num [mixChannels, mixIndices, dedupIdx, lookupWeight, mixIndex,
      clamp01, List.find?])

/-- Claim C2: a BlendshapeName present neither in the hint table nor (by the
case-insensitive match) in the model name list resolves to absent rather
than an error, and activations under that name contribute nothing to any
emitted MorphVector. -/
theorem c2_unresolved_name_absent (hints : List (String × Nat))
    (modelNames : List String) (name : String) (w : ℚ)
    (acts : List (String × ℚ))
    (hh : ∀ p ∈ hints, p.1 ≠ name)
    (hm : ∀ m ∈ modelNames, nameMatches m name = false) :
    resolve hints modelNames name = none ∧
    emitChannel (resolve hints modelNames) ((name, w) :: acts) =
      emitChannel (resolve hints modelNames) acts := by
  have hfind : hints.find? (fun p => p.1 == name) = none :=
    List.find?_eq_none.mpr (fun x hx => by simpa using hh x hx)
  have hres : resolve hints modelNames name = none := by
    unfold resolve
    rw [hfind]
    exact firstMatchIdx_eq_none hm
  refine ⟨hres, ?_⟩
  simp [emitChannel, List.filterMap_cons, hres]

/-- Concrete run of C2: the name browFurrow misses a one-entry hint table
and a two-name model list, resolves to absent, and its activation leaves
the emitted vector unchanged. -/
theorem c2_unresolved_name_absent_witness :
    resolve [("jawOpen", 0)] ["jawOpen", "mouthSmile"] "browFurrow" = none ∧
    emitChannel (resolve [("jawOpen", 0)] ["jawOpen", "mouthSmile"])
        (("browFurrow", 1) :: [("jawOpen", 1/2)]) =
      emitChannel (resolve [("jawOpen", 0)] ["jawOpen", "mouthSmile"])
        [("jawOpen", 1/2)] :=
  c2_unresolved_name_absent _ _ _ _ _ (by decide) (by decide)

/-- Claim C3: a request arriving while a gesture is Playing never preempts
it and is deferred in the queued slot; two requests queued before playback
starts leave only the latest in the slot, so only the second eventually
plays; advancing a Playing gesture progresses it without touching the
deferred request. -/
theorem c3_gesture_queue_policy (s : GestureSM) (g1 g2 g : String) (r dt : ℚ)
    (hk2 : g2 ∈ knownGestures) :
    (request g2 s).phase = s.phase ∧
    (request g2 s).queued = some g2 ∧
    request g2 (request g1 s) = request g2 s ∧
    (s.phase = GPhase.idle →
      (gsmAdvance dt (request g2 s)).phase =
        GPhase.playing g2 (gestureDuration g2)) ∧
    (s.phase = GPhase.playing g r → dt < r →
      (gsmAdvance dt (request g2 s)).phase = GPhase.playing g (r - dt) ∧
      (gsmAdvance dt (request g2 s)).queued = some g2) := by
  have hreq : request g2 s = { s with queued := some g2 } := by
    simp [request, hk2]
  refine ⟨by rw [hreq], by rw [hreq], ?_, ?_, ?_⟩
  · by_cases hk1 : g1 ∈ knownGestures
    · simp [request, hk1, hk2]
    · simp [request, hk1, hk2]
  · intro hidle
    rw [hreq]
    simp [gsmAdvance, hidle]
  · intro hp hdt
    rw [hreq]
    constructor
    · simp [gsmAdvance, hp, hdt]
    · simp [gsmAdvance, hp, hdt]

/-- Concrete run of C3: with nod Playing at 900ms remaining, a tilt then a
shake request keep nod playing, retain only shake in the queue, and an
advance of 100ms progresses nod to 800ms with shake still deferred. -/
theorem c3_gesture_queue_policy_witness :
    (request "shake" ⟨GPhase.playing "nod" 900, none⟩).phase =
      GPhase.playing "nod" 900 ∧
    (request "shake" ⟨GPhase.playing "nod" 900, none⟩).queued = some "shake" ∧
    request "shake" (request "tilt" ⟨GPhase.playing "nod" 900, none⟩) =
      request "shake" ⟨GPhase.playing "nod" 900, none⟩ ∧
    (GPhase.playing "nod" 900 = GPhase.idle →
      (gsmAdvance 100 (request "shake" ⟨GPhase.playing "nod" 900, none⟩)).phase =
        GPhase.playing "shake" (gestureDuration "shake")) ∧
    (GPhase.playing "nod" 900 = GPhase.playing "nod" 900 → (100 : ℚ) < 900 →
      (gsmAdvance 100 (request "shake" ⟨GPhase.playing "nod" 900, none⟩)).phase =
        GPhase.playing "nod" (900 - 100) ∧
      (gsmAdvance 100 (request "shake" ⟨GPhase.playing "nod" 900, none⟩)).queued =
        some "shake") :=
  c3_gesture_queue_policy ⟨GPhase.playing "nod" 900, none⟩ "tilt" "shake" "nod"
    900 100 (by decide)

/-- Claim C4: the mixer is deterministic: the emitted MorphVector is a
function of the four channel snapshots alone, so two engine states agreeing
on the snapshots (whatever their idle randomness seed or clock time) emit
identical vectors, and re-running the mix repeats the result. -/
theorem c4_mix_deterministic (e1 e2 : Engine)
    (he : e1.expressionCh = e2.expressionCh) (hv : e1.visemeCh = e2.visemeCh)
    (hg : e1.gestureCh = e2.gestureCh) (hi : e1.idleCh = e2.idleCh) :
    emitFrame e1 = emitFrame e2 := by
  unfold emitFrame
  rw [he, hv, hg, hi]

/-- Concrete run of C4: two engines with identical channel snapshots but
different blink seeds and clock times emit the same frame. -/
theorem c4_mix_deterministic_witness :
    emitFrame ⟨⟨[(0, 1/2)], true, 0, 200⟩, ⟨[], false, 0, 0⟩,
      ⟨[], false, 0, 0⟩, ⟨[(1, 1/5)], true, 0, 0⟩, 7, 16⟩ =
    emitFrame ⟨⟨[(0, 1/2)], true, 0, 200⟩, ⟨[], false, 0, 0⟩,
      ⟨[], false, 0, 0⟩, ⟨[(1, 1/5)], true, 0, 0⟩, 99, 3000⟩ :=
  c4_mix_deterministic _ _ rfl rfl rfl rfl

theorem visRun_release_invariant (w0 : ℚ) (xs : List VisInput) (s : VisState)
    (hs : s.speaking = false) (hf : s.releaseFrom = w0)
    (hw : s.weight = w0 * max 0 (1 - s.releaseElapsed / releaseWindow)) :
    (visRun s xs).speaking = false ∧ (visRun s xs).releaseFrom = w0 ∧
    (visRun s xs).releaseElapsed = s.releaseElapsed + totalTicks xs ∧
    (visRun s xs).weight =
      w0 * max 0 (1 - (s.releaseElapsed + totalTicks xs) / releaseWindow) := by
  induction xs generalizing s with
  | nil =>
    refine ⟨hs, hf, by simp [visRun, totalTicks], ?_⟩
    simpa [visRun, totalTicks] using hw
  | cons x xs ih =>
    cases x with
    | ev e =>
      have hstep : visStep s (VisInput.ev e) = s := by
        simp [visStep, visApplyEvent, hs]
      have hrun : visRun s (VisInput.ev e :: xs) = visRun s xs := by
        simp [visRun, List.foldl_cons, hstep]
      rw [hrun]
      simpa [totalTicks] using ih s hs hf hw
    | tick dt =>
      have hstep : visStep s (VisInput.tick dt) =
          { weight := w0 * max 0 (1 - (s.releaseElapsed + dt) / releaseWindow),
            releaseFrom := w0, releaseElapsed := s.releaseElapsed + dt,
            speaking := false } := by
        simp [visStep, visAdvance, hs, hf]
      have hrun : visRun s (VisInput.tick dt :: xs) =
          visRun
            { weight := w0 * max 0 (1 - (s.releaseElapsed + dt) / releaseWindow),
              releaseFrom := w0, releaseElapsed := s.releaseElapsed + dt,
              speaking := false } xs := by
        simp [visRun, List.foldl_cons, hstep]
      rw [hrun]
      obtain ⟨a, b, c, d⟩ := ih
        { weight := w0 * max 0 (1 - (s.releaseElapsed + dt) / releaseWindow),
          releaseFrom := w0, releaseElapsed := s.releaseElapsed + dt,
          speaking := false } rfl rfl rfl
      refine ⟨a, b, ?_, ?_⟩
      · rw [c]
        simp [totalTicks]
        ring
      · rw [d]
        simp only [totalTicks]
        rw [add_assoc]

/-- Claim C5: once speaking transitions to false, the Viseme channel decays
linearly over the 150ms release window — no abrupt cut at the transition —
and is exactly neutral once the accumulated tick time reaches the window,
whatever viseme events are still in flight. -/
theorem c5_viseme_release_to_neutral (s : VisState) (xs : List VisInput)
    (dt : ℚ) (htot : releaseWindow ≤ totalTicks xs) :
    (visRun (visSetSpeaking false s) xs).weight = 0 ∧
    (visSetSpeaking false s).weight = s.weight ∧
    (0 ≤ dt → dt ≤ releaseWindow →
      (visAdvance dt (visSetSpeaking false s)).weight =
        s.weight * (1 - dt / releaseWindow)) := by
  have hset : visSetSpeaking false s =
      { weight := s.weight, releaseFrom := s.weight, releaseElapsed := 0,
        speaking := false } := by simp [visSetSpeaking]
  have hwin : (0 : ℚ) < releaseWindow := by norm_num [releaseWindow]
  refine ⟨?_, by rw [hset], ?_⟩
  · rw [hset]
    obtain ⟨_, _, _, hw⟩ := visRun_release_invariant s.weight xs
      { weight := s.weight, releaseFrom := s.weight, releaseElapsed := 0,
        speaking := false } rfl rfl (by norm_num)
    rw [hw]
    have h1 : (1 : ℚ) ≤ totalTicks xs / releaseWindow :=
      (one_le_div hwin).mpr htot
    have hmax : max 0 (1 - ((0 : ℚ) + totalTicks xs) / releaseWindow) = 0 :=
      max_eq_left (by rw [zero_add]; linarith)
    rw [hmax, mul_zero]
  · intro h0 h1
    rw [hset]
    have hd : dt / releaseWindow ≤ 1 := (div_le_one hwin).mpr h1
    simp only [visAdvance, Bool.false_eq_true, if_false, zero_add]
    rw [max_eq_right (by linarith)]

/-- Concrete run of C5: a channel at weight 2/3 sees speaking go false; an
in-flight event then ticks of 90ms and 70ms (160ms total) leave it exactly
neutral, the transition itself does not change the weight, and a 30ms
advance only decays it to 2/3 of 0.8. -/
theorem c5_viseme_release_to_neutral_witness :
    (visRun (visSetSpeaking false ⟨2/3, 0, 0, true⟩)
      [VisInput.ev ⟨1, 0, 120⟩, VisInput.tick 90, VisInput.tick 70]).weight = 0 ∧
    (visSetSpeaking false ⟨2/3, 0, 0, true⟩).weight = (2/3 : ℚ) ∧
    ((0 : ℚ) ≤ 30 → (30 : ℚ) ≤ releaseWindow →
      (visAdvance 30 (visSetSpeaking false ⟨2/3, 0, 0, true⟩)).weight =
        (2/3 : ℚ) * (1 - 30 / releaseWindow)) :=
  c5_viseme_release_to_neutral ⟨2/3, 0, 0, true⟩
    [VisInput.ev ⟨1, 0, 120⟩, VisInput.tick 90, VisInput.tick 70] 30
    (by norm_num [releaseWindow, totalTicks])

/-- Claim C6: each tick the AnimationClock supplies the wall-clock elapsed
time clamped to the 100ms maximum: below the threshold the exact elapsed
time is delivered, beyond it the clamp value is delivered and the clock
still advances to the current time, so a stall is never compressed into one
oversized tick. -/
theorem c6_clock_delta_clamped (now : ℚ) (s : ClockState) :
    (clockTick now s).1 ≤ maxDelta ∧
    (now - s.lastTime ≤ maxDelta → (clockTick now s).1 = now - s.lastTime) ∧
    (maxDelta < now - s.lastTime → (clockTick now s).1 = maxDelta) ∧
    (clockTick now s).2.lastTime = now :=
  ⟨min_le_right _ _, fun h => min_eq_left h,
   fun h => min_eq_right (le_of_lt h), rfl⟩

/-- Concrete run of C6: after a 500ms stall from time 0 the tick delivers
the clamped 100ms delta and continues from time 500. -/
theorem c6_clock_delta_clamped_witness :
    (clockTick 500 ⟨0⟩).1 ≤ maxDelta ∧
    ((500 : ℚ) - 0 ≤ maxDelta → (clockTick 500 ⟨0⟩).1 = (500 : ℚ) - 0) ∧
    (maxDelta < (500 : ℚ) - 0 → (clockTick 500 ⟨0⟩).1 = maxDelta) ∧
    (clockTick 500 ⟨0⟩).2.lastTime = 500 :=
  c6_clock_delta_clamped 500 ⟨0⟩

/-- Claim C7: the morph hint file is fetched once at mount from the
well-known path, and the setter is called exactly when the fetch resolved
with an ok status and a truthy parsed body; a rejected fetch, a non-ok
status, a parse failure or a null body all yield no call and no error. -/
theorem c7_morphmap_load_nonfatal (o : FetchOutcome) (d : MorphHints)
    (ok : Bool) (b : Except Unit (Option MorphHints)) :
    appMountHintLoads o = [(morphHintUrl, loadMorphHints o)] ∧
    morphHintUrl = "/avatar.morphmap.json" ∧
    loadMorphHints FetchOutcome.rejected = none ∧
    loadMorphHints (FetchOutcome.response false b) = none ∧
    loadMorphHints (FetchOutcome.response ok (Except.error ())) = none ∧
    loadMorphHints (FetchOutcome.response ok (Except.ok none)) = none ∧
    (loadMorphHints o = some d ↔
      o = FetchOutcome.response true (Except.ok (some d))) := by
  refine ⟨rfl, rfl, rfl, rfl, ?_, ?_, ?_⟩
  · cases ok <;> rfl
  · cases ok <;> rfl
  · constructor
    · intro h
      cases o with
      | rejected => exact absurd h (by simp [loadMorphHints])
      | response ok2 body =>
        cases ok2 with
        | false => exact absurd h (by simp [loadMorphHints])
        | true =>
          cases body with
          | error e => exact absurd h (by simp [loadMorphHints])
          | ok jb =>
            cases jb with
            | none => exact absurd h (by simp [loadMorphHints])
            | some data =>
              have : data = d := by simpa [loadMorphHints] using h
              rw [this]
    · intro h
      rw [h]
      rfl

/-- Claim C8: each signal setter replaces only its own pending value: the
other three signals, the engine state and the render surface are untouched,
and the value written is exactly the one passed. -/
theorem c8_signal_setters_isolated (v : Option String) (b : Bool)
    (m : AppModel) :
    (appSetExpression v m).signals.expression = v ∧
    (appSetExpression v m).signals.viseme = m.signals.viseme ∧
    (appSetExpression v m).signals.gesture = m.signals.gesture ∧
    (appSetExpression v m).signals.speaking = m.signals.speaking ∧
    (appSetExpression v m).engine = m.engine ∧
    (appSetExpression v m).rendered = m.rendered ∧
    (appSetViseme v m).signals.viseme = v ∧
    (appSetViseme v m).signals.expression = m.signals.expression ∧
    (appSetViseme v m).signals.gesture = m.signals.gesture ∧
    (appSetViseme v m).signals.speaking = m.signals.speaking ∧
    (appSetViseme v m).engine = m.engine ∧
    (appSetViseme v m).rendered = m.rendered ∧
    (appSetGesture v m).signals.gesture = v ∧
    (appSetGesture v m).signals.expression = m.signals.expression ∧
    (appSetGesture v m).signals.viseme = m.signals.viseme ∧
    (appSetGesture v m).signals.speaking = m.signals.speaking ∧
    (appSetGesture v m).engine = m.engine ∧
    (appSetGesture v m).rendered = m.rendered ∧
    (appSetSpeaking b m).signals.speaking = b ∧
    (appSetSpeaking b m).signals.expression = m.signals.expression ∧
    (appSetSpeaking b m).signals.viseme = m.signals.viseme ∧
    (appSetSpeaking b m).signals.gesture = m.signals.gesture ∧
    (appSetSpeaking b m).engine = m.engine ∧
    (appSetSpeaking b m).rendered = m.rendered :=
  ⟨rfl, rfl, rfl, rfl, rfl, rfl, rfl, rfl, rfl, rfl, rfl, rfl,
   rfl, rfl, rfl, rfl, rfl, rfl, rfl, rfl, rfl, rfl, rfl, rfl⟩

/-- Claim C9: the three discrete signals start as null and speaking starts
false; a null signal is a valid value meaning settle to neutral: the
expression target for null is the neutral vector and a null gesture signal
requests nothing, never an error. -/
theorem c9_null_signals_valid (presets : String → Option MorphVector)
    (s : GestureSM) :
    initialSignals.expression = none ∧
    initialSignals.viseme = none ∧
    initialSignals.gesture = none ∧
    initialSignals.speaking = false ∧
    targetForSignal presets none = [] ∧
    applyGestureSignal none s = s :=
  ⟨rfl, rfl, rfl, rfl, rfl, rfl⟩

/-- Claim C10: the HowToModal scroll lock is a round trip: for every prior
body overflow value the open effect sets the style to hidden after saving
the prior value, and the cleanup restores exactly that prior value. -/
theorem c10_scroll_lock_roundtrip (overflow : String) :
    (modalOpenEffect overflow).2 = "hidden" ∧
    modalCleanup (modalOpenEffect overflow).1 (modalOpenEffect overflow).2 =
      overflow :=
  ⟨rfl, rfl⟩
